import Mathlib

/-!
# Verification of the MermaidHub recommendation ranker and trending aggregator

Shallow embedding of the dataset-recommendation and trending logic of the
`mermaid-hub` Flask application:

* `app/modules/dataset/models.py` — the ORM rows the algorithms read
  (`DataSet`, `DSMetaData`, `Author`, `DSViewRecord`, `DSDownloadRecord`,
  `DiagramType`).
* `app/modules/dataset/services.py` — `DataSetService.diagram_similarity`,
  `tag_similarity`, `author_similarity`, `get_popularity`,
  `recommend_simple`, and `TrendingDatasetsService`.
* `app/modules/dataset/repositories.py` —
  `TrendingDatasetsRepository.get_top_downloaded_datasets` and
  `get_top_downloaded_datasets_metadata`.

The database is modelled as an explicit `DbState` (the rows of the tables the
queries touch); Python numbers become `Nat`/`Int`, Python float score
arithmetic becomes exact `ℚ` arithmetic (the scores are sums of small integers
and one half-bounded fraction), Python's stable `list.sort(key=..,
reverse=True)` becomes `List.mergeSort` with the reversed key order (both are
stable descending sorts, hence produce the same list), and `ValueError`
becomes `Except String`.
-/

namespace MermaidHub

/-- `models.py` `DiagramType(Enum)`: the closed enumeration of diagram kinds. -/
inductive DiagramType where
  | FLOWCHART
  | SEQUENCE_DIAGRAM
  | CLASS_DIAGRAM
  | STATE_DIAGRAM
  | ENTITY_RELATIONSHIP_DIAGRAM
  | USER_JOURNEY
  | GANTT
  | PIE_CHART
  | QUADRANT_CHART
  | REQUIREMENT_DIAGRAM
  | GITGRAPH_DIAGRAM
  | C4_DIAGRAM
  | MINDMAPS
  | TIMELINE
  | ZENUML
  | SANKEY
  | XYCHART
  | BLOCKDIAGRAM
  | PACKET
  | KANBAN
  | ARCHITECTURE
  | RADAR
  | TREEMAP
deriving DecidableEq, Repr

/-- Python's `member.name` for `DiagramType` (the enum member's identifier). -/
def DiagramType.name : DiagramType → String
  | .FLOWCHART => "FLOWCHART"
  | .SEQUENCE_DIAGRAM => "SEQUENCE_DIAGRAM"
  | .CLASS_DIAGRAM => "CLASS_DIAGRAM"
  | .STATE_DIAGRAM => "STATE_DIAGRAM"
  | .ENTITY_RELATIONSHIP_DIAGRAM => "ENTITY_RELATIONSHIP_DIAGRAM"
  | .USER_JOURNEY => "USER_JOURNEY"
  | .GANTT => "GANTT"
  | .PIE_CHART => "PIE_CHART"
  | .QUADRANT_CHART => "QUADRANT_CHART"
  | .REQUIREMENT_DIAGRAM => "REQUIREMENT_DIAGRAM"
  | .GITGRAPH_DIAGRAM => "GITGRAPH_DIAGRAM"
  | .C4_DIAGRAM => "C4_DIAGRAM"
  | .MINDMAPS => "MINDMAPS"
  | .TIMELINE => "TIMELINE"
  | .ZENUML => "ZENUML"
  | .SANKEY => "SANKEY"
  | .XYCHART => "XYCHART"
  | .BLOCKDIAGRAM => "BLOCKDIAGRAM"
  | .PACKET => "PACKET"
  | .KANBAN => "KANBAN"
  | .ARCHITECTURE => "ARCHITECTURE"
  | .RADAR => "RADAR"
  | .TREEMAP => "TREEMAP"

/-- `models.py` `Author`: only the display name is read by the ranker
(`affiliation`/`orcid` are never consulted by the embedded code paths). -/
structure Author where
  name : String
deriving DecidableEq, Repr

/-- `models.py` `Hubfile` (from the hubfile module): only `size` is read by
`DataSet.get_file_total_size` / `get_files_count`. -/
structure Hubfile where
  size : Nat
deriving DecidableEq, Repr

/-- `models.py` `MermaidDiagram`: only its `files` relationship is read here. -/
structure MermaidDiagram where
  files : List Hubfile
deriving DecidableEq, Repr

/-- `models.py` `DSMetaData`: the metadata row joined to each dataset. -/
structure DSMetaData where
  title : String
  description : String
  diagram_type : DiagramType
  publication_doi : Option String
  dataset_doi : Option String
  tags : Option String
  authors : List Author
deriving DecidableEq, Repr

/-- `models.py` `DataSet` with its one-to-one `ds_meta_data` relationship
inlined (the SQL join `DataSet.ds_meta_data_id == DSMetaData.id`).
`created_at` is a timestamp; only equality of timestamps matters here, so it
is an `Int`. -/
structure DataSet where
  id : Nat
  user_id : Nat
  created_at : Int
  ds_meta_data : DSMetaData
  mermaid_diagrams : List MermaidDiagram
deriving DecidableEq, Repr

/-- `models.py` `DSViewRecord`: one row per recorded dataset view. -/
structure DSViewRecord where
  dataset_id : Nat
deriving DecidableEq, Repr

/-- `models.py` `DSDownloadRecord`: one row per recorded dataset download.
`download_date` is a timestamp modelled as an `Int` (only the ordering against
the window start matters). -/
structure DSDownloadRecord where
  dataset_id : Nat
  download_date : Int
deriving DecidableEq, Repr

/-- The rows of the tables read by the embedded queries: the explicit stand-in
for the SQLAlchemy session. -/
structure DbState where
  datasets : List DataSet
  view_records : List DSViewRecord
  download_records : List DSDownloadRecord
deriving Repr

/-- `DataSet.get_files_count`: `sum(len(fm.files) for fm in self.mermaid_diagrams)`. -/
def DataSet.get_files_count (ds : DataSet) : Nat :=
  (ds.mermaid_diagrams.map (fun fm => fm.files.length)).sum

/-- `DataSet.get_file_total_size`: `sum(file.size for fm in ... for file in fm.files)`. -/
def DataSet.get_file_total_size (ds : DataSet) : Nat :=
  (ds.mermaid_diagrams.map (fun fm => (fm.files.map (fun f => f.size)).sum)).sum

/-- Python `str.title()` over a character list: the first alphabetic character
of every alphabetic run is uppercased, the rest lowercased; the flag carries
whether the previous character was alphabetic. -/
def pyTitleAux : List Char → Bool → List Char
  | [], _ => []
  | c :: cs, prevAlpha =>
    (if c.isAlpha then (if prevAlpha then c.toLower else c.toUpper) else c)
      :: pyTitleAux cs c.isAlpha

/-- `DataSet.get_cleaned_diagram_type`:
`self.ds_meta_data.diagram_type.name.replace("_", " ").title()`. -/
def DataSet.get_cleaned_diagram_type (ds : DataSet) : String :=
  String.mk
    (pyTitleAux
      ((ds.ds_meta_data.diagram_type.name.toList).map
        (fun c => if c = '_' then ' ' else c))
      false)

/-! ## The similarity helpers (`services.py` lines 185–201) -/

/-- `DataSetService.diagram_similarity`:
`1 if ds1.ds_meta_data.diagram_type == ds2.ds_meta_data.diagram_type else 0`. -/
def diagram_similarity (ds1 ds2 : DataSet) : Nat :=
  if ds1.ds_meta_data.diagram_type = ds2.ds_meta_data.diagram_type then 1 else 0

/-- Splitter used to embed Python `str.split` semantics on a character list:
maximal runs of non-separator characters, empty runs dropped. The accumulator
holds the current run reversed. -/
def splitSepAux (sep : Char → Bool) : List Char → List Char → List String
  | [], acc => if acc.isEmpty then [] else [String.mk acc.reverse]
  | c :: cs, acc =>
    if sep c then
      if acc.isEmpty then splitSepAux sep cs []
      else String.mk acc.reverse :: splitSepAux sep cs []
    else splitSepAux sep cs (c :: acc)

/-- Tokens of a character list under a separator predicate. -/
def splitSep (sep : Char → Bool) (l : List Char) : List String :=
  splitSepAux sep l []

/-- The tag parser inside `tag_similarity`:
`set((tags or "").replace(",", " ").split())`, as the token list before
`set(...)` is applied. Single-character `str.replace` is a character map and
argumentless `str.split` splits on whitespace runs, dropping empty tokens. -/
def parse_tags (tags : Option String) : List String :=
  splitSep (fun c => c.isWhitespace)
    (((tags.getD "").toList).map (fun c => if c = ',' then ' ' else c))

/-- `DataSetService.tag_similarity`: `len(tags1.intersection(tags2))` where
`tagsN` are the parsed tag sets. -/
def tag_similarity (ds1 ds2 : DataSet) : Nat :=
  ((parse_tags ds1.ds_meta_data.tags).toFinset
    ∩ (parse_tags ds2.ds_meta_data.tags).toFinset).card

/-- `DataSetService.author_similarity`:
`len({a.name for a in ds1...authors} & {a.name for a in ds2...authors})`. -/
def author_similarity (ds1 ds2 : DataSet) : Nat :=
  ((ds1.ds_meta_data.authors.map Author.name).toFinset
    ∩ (ds2.ds_meta_data.authors.map Author.name).toFinset).card

/-- `DataSetService.get_popularity`: view-record count plus download-record
count for the dataset id (two SQL `count` queries). -/
def get_popularity (s : DbState) (dataset_id : Nat) : Nat :=
  (s.view_records.filter (fun r => r.dataset_id = dataset_id)).length
    + (s.download_records.filter (fun r => r.dataset_id = dataset_id)).length

/-! ## `DataSetService.recommend_simple` (`services.py` lines 203–234) -/

/-- `max_popularity = max(popularity_list) or 1`. `recommend_simple` only
evaluates this after a target was found, so the list is non-empty there and
Python's `max` equals the fold from 0 (all entries are naturals); `or 1`
replaces a falsy (zero) maximum by 1. -/
def max_popularity_of (pops : List Nat) : Nat :=
  let m := pops.foldl max 0
  if m = 0 then 1 else m

/-- The scored candidate list built by the `for ds, pop in zip(datasets,
popularity_list)` loop: candidates equal to the target id are skipped and each
remaining candidate is paired with
`3*diag_sim + 1*tag_sim + 1*author_sim + 0.5*(pop/max_popularity)`.
Python float arithmetic is embedded as exact `ℚ` arithmetic. -/
def recommend_scored (s : DbState) (dataset_id : Nat) (target : DataSet) :
    List (DataSet × ℚ) :=
  let datasets := s.datasets
  let popularity_list := datasets.map (fun ds => get_popularity s ds.id)
  let max_popularity := max_popularity_of popularity_list
  (datasets.zip popularity_list).filterMap (fun p =>
    if p.1.id = dataset_id then none
    else some (p.1,
      ((3 * diagram_similarity target p.1 + 1 * tag_similarity target p.1
          + 1 * author_similarity target p.1 : Nat) : ℚ)
        + (1 / 2 : ℚ) * ((p.2 : ℚ) / (max_popularity : ℚ))))

/-- `DataSetService.recommend_simple`. The target lookup is
`next((ds for ds in datasets if ds.id == dataset_id), None)`; the final
`results.sort(key=lambda x: x[1], reverse=True)` is Python's stable sort in
descending key order, embedded as the stable `List.mergeSort` under the
reversed key comparison; `results[:top_n]` is `take`, and the comprehension
keeps only the datasets. -/
def recommend_simple (s : DbState) (dataset_id : Nat) (top_n : Nat) :
    List DataSet :=
  match s.datasets.find? (fun ds => ds.id == dataset_id) with
  | none => []
  | some target =>
      (((recommend_scored s dataset_id target).mergeSort
          (fun a b => decide (b.2 ≤ a.2))).take top_n).map Prod.fst

/-- The total score `recommend_simple` computes for a candidate, as a function
of the candidate (the pair built in the loop is `(ds, score_of ... ds)`). -/
def score_of (s : DbState) (target ds : DataSet) : ℚ :=
  ((3 * diagram_similarity target ds + 1 * tag_similarity target ds
      + 1 * author_similarity target ds : Nat) : ℚ)
    + (1 / 2 : ℚ) * ((get_popularity s ds.id : ℚ)
        / (max_popularity_of (s.datasets.map (fun d => get_popularity s d.id)) : ℚ))

/-! ## Trending datasets (`repositories.py` lines 124–174, `services.py`
lines 315–345) -/

/-- The window filter of `get_top_downloaded_datasets`: with
`period_days = None` every record qualifies; otherwise only records with
`download_date >= now - timedelta(days=period_days)`. -/
def in_window (now : Int) (period_days : Option Int) (r : DSDownloadRecord) :
    Bool :=
  match period_days with
  | none => true
  | some d => decide (now - d ≤ r.download_date)

/-- Number of download rows for `dataset_id` passing the window filter: the
`func.count(DSDownloadRecord.id)` of the group for that dataset. -/
def window_download_count (s : DbState) (now : Int) (period_days : Option Int)
    (dataset_id : Nat) : Nat :=
  (s.download_records.filter
    (fun r => r.dataset_id = dataset_id && in_window now period_days r)).length

/-- `TrendingDatasetsRepository.get_top_downloaded_datasets`: join datasets
with their download records, keep only rows with a non-null `dataset_doi`,
apply the optional window filter, group by dataset and count, order by count
descending, and take `limit` rows. The inner join drops datasets with no
qualifying download row; SQL leaves the order of equal counts open and the
spec fixes it to query order, i.e. a stable sort. -/
def get_top_downloaded_datasets (s : DbState) (now : Int) (limit : Nat)
    (period_days : Option Int) : List (DataSet × Nat) :=
  let rows :=
    ((s.datasets.filter (fun ds => ds.ds_meta_data.dataset_doi.isSome)).map
      (fun ds => (ds, window_download_count s now period_days ds.id))).filter
        (fun p => 0 < p.2)
  (rows.mergeSort (fun a b => decide (b.2 ≤ a.2))).take limit

/-- One entry of the metadata list built by
`get_top_downloaded_datasets_metadata`. The two presentation-only fields
built from collaborators outside the embedded fragment are omitted:
`total_size_human` (float formatting in `SizeService`) and `doi`
(`url_for`/environment lookup in `get_mermaidhub_doi`). -/
structure TrendingDatasetMetadata where
  id : Nat
  title : String
  description : String
  diagram_type : String
  dataset_doi : Option String
  publication_doi : Option String
  tags : Option String
  created_at : Int
  download_count : Nat
  user_id : Nat
  files_count : Nat
  total_size : Nat
deriving DecidableEq, Repr

/-- `TrendingDatasetsRepository.get_top_downloaded_datasets_metadata`: map the
rows of `get_top_downloaded_datasets` to metadata records. -/
def get_top_downloaded_datasets_metadata (s : DbState) (now : Int)
    (limit : Nat) (period_days : Option Int) : List TrendingDatasetMetadata :=
  (get_top_downloaded_datasets s now limit period_days).map (fun p =>
    { id := p.1.id
      title := p.1.ds_meta_data.title
      description := p.1.ds_meta_data.description
      diagram_type := p.1.get_cleaned_diagram_type
      dataset_doi := p.1.ds_meta_data.dataset_doi
      publication_doi := p.1.ds_meta_data.publication_doi
      tags := p.1.ds_meta_data.tags
      created_at := p.1.created_at
      download_count := p.2
      user_id := p.1.user_id
      files_count := p.1.get_files_count
      total_size := p.1.get_file_total_size })

/-- `TrendingDatasetsService._get_period_days`: the `{"week": 7, "month": 30}`
mapping; any other period raises `ValueError`, embedded as `Except.error`
carrying the formatted message. -/
def get_period_days (period : String) : Except String Int :=
  if period = "week" then .ok 7
  else if period = "month" then .ok 30
  else .error ("Invalid period '" ++ period ++ "'. Must be 'week' or 'month'.")

/-- `TrendingDatasetsService.get_trending_datasets`: resolve the period string
first (raising on an invalid one), then query the repository. -/
def get_trending_datasets (s : DbState) (now : Int) (limit : Nat)
    (period : String) : Except String (List (DataSet × Nat)) := do
  let period_days ← get_period_days period
  return get_top_downloaded_datasets s now limit (some period_days)

/-- `TrendingDatasetsService.get_trending_datasets_metadata`: same control
flow through the metadata variant of the repository query. -/
def get_trending_datasets_metadata (s : DbState) (now : Int) (limit : Nat)
    (period : String) : Except String (List TrendingDatasetMetadata) := do
  let period_days ← get_period_days period
  return get_top_downloaded_datasets_metadata s now limit (some period_days)

/-! ## Concrete fixtures

Small executable rows used to instantiate the theorems below on closed
inputs. -/

/-- A concrete metadata row. -/
def sampleMeta : DSMetaData :=
  { title := "sample", description := "sample", diagram_type := .FLOWCHART,
    publication_doi := none, dataset_doi := some "10.1234/ds.1",
    tags := some "tagA", authors := [] }

/-- A concrete dataset row with a chosen id and diagram type. -/
def sampleDataSet (i : Nat) (dt : DiagramType) : DataSet :=
  { id := i, user_id := 1, created_at := 0,
    ds_meta_data := { sampleMeta with diagram_type := dt },
    mermaid_diagrams := [] }

/-- A concrete database: three datasets, one view of dataset 2, one download
of dataset 3 at time 10. -/
def sampleState : DbState :=
  { datasets := [sampleDataSet 1 .FLOWCHART, sampleDataSet 2 .FLOWCHART,
                 sampleDataSet 3 .GANTT],
    view_records := [⟨2⟩],
    download_records := [⟨3, 10⟩] }

/-- A concrete dataset row with missing tags and no authors. -/
def noTagsDataSet : DataSet :=
  { id := 9, user_id := 1, created_at := 0,
    ds_meta_data :=
      { sampleMeta with
        diagram_type := .GANTT
        tags := none
        authors := [] },
    mermaid_diagrams := [] }

/-- A database whose only dataset has id 2, so that a lookup for id 1 finds
no target. -/
def absentTargetState : DbState :=
  { datasets := [sampleDataSet 2 .FLOWCHART],
    view_records := [], download_records := [] }

/-- A database whose only dataset is the lookup target itself. -/
def onlyTargetState : DbState :=
  { datasets := [sampleDataSet 1 .FLOWCHART],
    view_records := [], download_records := [] }

end MermaidHub

namespace MermaidHub

/-! ## Helper lemmas -/

/-- Zipping a list with its own image under `pop` and then `filterMap`-ing a
function of both components is a `filterMap` over the original list. -/
theorem zip_self_map_filterMap {α β γ : Type*} (l : List α) (pop : α → β)
    (f : α × β → Option γ) :
    (l.zip (l.map pop)).filterMap f
      = l.filterMap (fun a => f (a, pop a)) := by
  induction l with
  | nil => rfl
  | cons a t ih =>
    simp only [List.map_cons, List.zip_cons_cons, List.filterMap_cons]
    cases f (a, pop a) <;> simp [ih]

/-- A `filterMap` that drops exactly the elements satisfying `p` and tags the
rest with `g` is a `filter`-then-`map`. -/
theorem filterMap_ite {α γ : Type*} (p : α → Prop) [DecidablePred p]
    (g : α → γ) (l : List α) :
    l.filterMap (fun a => if p a then none else some (g a))
      = (l.filter (fun a => decide ¬ p a)).map g := by
  induction l with
  | nil => rfl
  | cons a t ih =>
    by_cases h : p a <;> simp [List.filterMap_cons, List.filter_cons, h, ih]

/-- The scored candidate list is a map over the pool entries whose id differs
from the target id, pairing each with its total score. -/
theorem recommend_scored_eq (s : DbState) (did : Nat) (target : DataSet) :
    recommend_scored s did target
      = (s.datasets.filter (fun ds => decide (ds.id ≠ did))).map
          (fun c => (c, score_of s target c)) := by
  simp only [recommend_scored, score_of]
  rw [zip_self_map_filterMap]
  simp only []
  exact filterMap_ite (fun a : DataSet => a.id = did) _ _

end MermaidHub

namespace MermaidHub

/-- `diagram_similarity` is symmetric: type equality is symmetric. -/
theorem diagram_similarity_comm (a b : DataSet) :
    diagram_similarity a b = diagram_similarity b a := by
  unfold diagram_similarity
  by_cases h : a.ds_meta_data.diagram_type = b.ds_meta_data.diagram_type
  · rw [if_pos h, if_pos h.symm]
  · rw [if_neg h, if_neg (fun hh => h hh.symm)]

/-- `tag_similarity` is symmetric: set intersection is commutative. -/
theorem tag_similarity_comm (a b : DataSet) :
    tag_similarity a b = tag_similarity b a := by
  unfold tag_similarity
  rw [Finset.inter_comm]

/-- `author_similarity` is symmetric: set intersection is commutative. -/
theorem author_similarity_comm (a b : DataSet) :
    author_similarity a b = author_similarity b a := by
  unfold author_similarity
  rw [Finset.inter_comm]

/-- The total score in the spec's additive form: a 3-or-0 diagram score plus
tag overlap plus author overlap plus half the normalised popularity. -/
theorem score_of_spec (s : DbState) (target c : DataSet) :
    score_of s target c
      = (if c.ds_meta_data.diagram_type = target.ds_meta_data.diagram_type
          then (3 : ℚ) else 0)
        + (tag_similarity c target : ℚ) + (author_similarity c target : ℚ)
        + (1 / 2 : ℚ) * ((get_popularity s c.id : ℚ)
            / (max_popularity_of
                (s.datasets.map (fun d => get_popularity s d.id)) : ℚ)) := by
  unfold score_of
  rw [tag_similarity_comm target c, author_similarity_comm target c]
  unfold diagram_similarity
  by_cases h : target.ds_meta_data.diagram_type = c.ds_meta_data.diagram_type
  · rw [if_pos h, if_pos h.symm]
    push_cast
    ring
  · rw [if_neg h, if_neg (fun hh => h hh.symm)]
    push_cast
    ring

end MermaidHub

namespace MermaidHub

/-- **C1**: for every pool containing the target, the ranker pairs each
candidate `c` with `c.id ≠ target.id` with exactly
`diagramScore + tagScore + authorScore + popularityScore`, where the diagram
score is 3 on a matching diagram type and 0 otherwise, the tag and author
scores are the cardinalities of the respective set intersections, and the
popularity score is half the popularity normalised by the pool maximum; in
particular a candidate with empty tag and author sets but matching diagram
type scores exactly `3 + 0.5 * (popularity / maxPopularity)`. -/
theorem recommend_score_formula (s : DbState) (did : Nat) (target : DataSet)
    (_hmem : target ∈ s.datasets) (_hid : target.id = did) :
    recommend_scored s did target
      = (s.datasets.filter (fun ds => decide (ds.id ≠ did))).map
          (fun c =>
            (c, (if c.ds_meta_data.diagram_type = target.ds_meta_data.diagram_type
                  then (3 : ℚ) else 0)
                + (tag_similarity c target : ℚ)
                + (author_similarity c target : ℚ)
                + (1 / 2 : ℚ) * ((get_popularity s c.id : ℚ)
                    / (max_popularity_of
                        (s.datasets.map (fun d => get_popularity s d.id)) : ℚ))))
    ∧ ∀ c : DataSet, parse_tags c.ds_meta_data.tags = [] →
        c.ds_meta_data.authors = [] →
        c.ds_meta_data.diagram_type = target.ds_meta_data.diagram_type →
        score_of s target c
          = 3 + (1 / 2 : ℚ) * ((get_popularity s c.id : ℚ)
              / (max_popularity_of
                  (s.datasets.map (fun d => get_popularity s d.id)) : ℚ)) := by
  constructor
  · rw [recommend_scored_eq]
    simp only [score_of_spec]
  · intro c htags hauth hdt
    rw [score_of_spec, if_pos hdt]
    have h1 : tag_similarity c target = 0 := by
      simp [tag_similarity, htags]
    have h2 : author_similarity c target = 0 := by
      simp [author_similarity, hauth]
    rw [h1, h2]
    push_cast
    ring

/-- Closed instance of `recommend_score_formula` on `sampleState` with target
dataset 1. -/
theorem recommend_score_formula_witness :
    sampleDataSet 1 .FLOWCHART ∈ sampleState.datasets
    ∧ (sampleDataSet 1 .FLOWCHART).id = 1
    ∧ (recommend_scored sampleState 1 (sampleDataSet 1 .FLOWCHART)
        = (sampleState.datasets.filter (fun ds => decide (ds.id ≠ 1))).map
            (fun c =>
              (c, (if c.ds_meta_data.diagram_type
                      = (sampleDataSet 1 .FLOWCHART).ds_meta_data.diagram_type
                    then (3 : ℚ) else 0)
                  + (tag_similarity c (sampleDataSet 1 .FLOWCHART) : ℚ)
                  + (author_similarity c (sampleDataSet 1 .FLOWCHART) : ℚ)
                  + (1 / 2 : ℚ) * ((get_popularity sampleState c.id : ℚ)
                      / (max_popularity_of
                          (sampleState.datasets.map
                            (fun d => get_popularity sampleState d.id)) : ℚ))))
      ∧ ∀ c : DataSet, parse_tags c.ds_meta_data.tags = [] →
          c.ds_meta_data.authors = [] →
          c.ds_meta_data.diagram_type
              = (sampleDataSet 1 .FLOWCHART).ds_meta_data.diagram_type →
          score_of sampleState (sampleDataSet 1 .FLOWCHART) c
            = 3 + (1 / 2 : ℚ) * ((get_popularity sampleState c.id : ℚ)
                / (max_popularity_of
                    (sampleState.datasets.map
                      (fun d => get_popularity sampleState d.id)) : ℚ))) :=
  ⟨by decide, rfl,
    recommend_score_formula sampleState 1 (sampleDataSet 1 .FLOWCHART)
      (by decide) rfl⟩

end MermaidHub

namespace MermaidHub

/-- Transitivity of the boolean "descending by key" comparison. -/
theorem descBy_trans {α β : Type*} [LinearOrder β] (f : α → β) :
    ∀ a b c : α, decide (f b ≤ f a) = true → decide (f c ≤ f b) = true →
      decide (f c ≤ f a) = true := by
  intro a b c h1 h2
  simp only [decide_eq_true_eq] at *
  exact le_trans h2 h1

/-- Totality of the boolean "descending by key" comparison. -/
theorem descBy_total {α β : Type*} [LinearOrder β] (f : α → β) :
    ∀ a b : α, (decide (f b ≤ f a) || decide (f a ≤ f b)) = true := by
  intro a b
  simp only [Bool.or_eq_true, decide_eq_true_eq]
  exact le_total (f b) (f a)

/-- When the target lookup succeeds, `recommend_simple` is the `top_n` front
of the eligible candidates stably merge-sorted in descending score order. -/
theorem recommend_simple_eq (s : DbState) (did top_n : Nat) (target : DataSet)
    (h : s.datasets.find? (fun ds => ds.id == did) = some target) :
    recommend_simple s did top_n
      = ((s.datasets.filter (fun ds => decide (ds.id ≠ did))).mergeSort
          (fun a b =>
            decide (score_of s target b ≤ score_of s target a))).take top_n := by
  unfold recommend_simple
  rw [h]
  dsimp only
  rw [recommend_scored_eq]
  rw [← List.map_mergeSort (f := fun c => (c, score_of s target c))
        (r := fun a b => decide (score_of s target b ≤ score_of s target a))
        (fun a _ b _ => rfl)]
  rw [List.map_take, List.map_map]
  have hcomp : (Prod.fst ∘ fun c : DataSet => (c, score_of s target c)) = id := rfl
  rw [hcomp, List.map_id]

end MermaidHub

namespace MermaidHub

/-- **C2**: for every pool containing the target, the recommendation list is
sorted by total score descending (each adjacent pair is non-increasing), and
candidates of equal total score keep their relative order from the candidate
pool: for every score value `q`, the result's candidates of score `q` are a
prefix of the eligible pool entries of score `q` in pool order. -/
theorem recommend_sorted_stable (s : DbState) (did top_n : Nat)
    (target : DataSet)
    (h : s.datasets.find? (fun ds => ds.id == did) = some target) :
    List.Chain' (fun a b => score_of s target b ≤ score_of s target a)
      (recommend_simple s did top_n)
    ∧ ∀ q : ℚ,
        ((recommend_simple s did top_n).filter
            (fun ds => decide (score_of s target ds = q)))
          <+: ((s.datasets.filter (fun ds => decide (ds.id ≠ did))).filter
              (fun ds => decide (score_of s target ds = q))) := by
  rw [recommend_simple_eq s did top_n target h]
  constructor
  · have hp := List.sorted_mergeSort
      (descBy_trans (score_of s target)) (descBy_total (score_of s target))
      (s.datasets.filter (fun ds => decide (ds.id ≠ did)))
    have hp2 := List.Pairwise.sublist (List.take_sublist top_n _) hp
    exact (hp2.imp (fun hab => of_decide_eq_true hab)).chain'
  · intro q
    set el := s.datasets.filter (fun ds => decide (ds.id ≠ did)) with hel
    set cmp := fun a b : DataSet =>
      decide (score_of s target b ≤ score_of s target a) with hcmp
    set p := fun ds : DataSet => decide (score_of s target ds = q) with hpdef
    have hpair : (el.filter p).Pairwise (fun a b => cmp a b = true) := by
      apply List.pairwise_of_forall_mem_list
      intro a ha b hb
      have ha2 := of_decide_eq_true (List.mem_filter.mp ha).2
      have hb2 := of_decide_eq_true (List.mem_filter.mp hb).2
      rw [hcmp]
      simp only [decide_eq_true_eq]
      rw [ha2, hb2]
    have hsubl : (el.filter p).Sublist (el.mergeSort cmp) :=
      List.sublist_mergeSort (descBy_trans (score_of s target))
        (descBy_total (score_of s target)) hpair (List.filter_sublist el)
    have hsub2 : ((el.filter p).filter p).Sublist ((el.mergeSort cmp).filter p) :=
      List.Sublist.filter p hsubl
    rw [List.filter_filter] at hsub2
    have hpp : (fun a => p a && p a) = p := by
      funext a
      cases p a <;> simp
    rw [hpp] at hsub2
    have hperm : ((el.mergeSort cmp).filter p).Perm (el.filter p) :=
      List.Perm.filter p (List.mergeSort_perm el cmp)
    have heq : el.filter p = (el.mergeSort cmp).filter p :=
      hsub2.eq_of_length hperm.length_eq.symm
    have hpre : (((el.mergeSort cmp).take top_n).filter p)
        <+: ((el.mergeSort cmp).filter p) :=
      List.IsPrefix.filter p ( List.take_prefix top_n _)
    rw [← heq] at hpre
    exact hpre

/-- Closed instance of `recommend_sorted_stable` on `sampleState` with target
dataset 1 and `top_n = 2`. -/
theorem recommend_sorted_stable_witness :
    sampleState.datasets.find? (fun ds => ds.id == 1)
        = some (sampleDataSet 1 .FLOWCHART)
    ∧ (List.Chain'
        (fun a b => score_of sampleState (sampleDataSet 1 .FLOWCHART) b
          ≤ score_of sampleState (sampleDataSet 1 .FLOWCHART) a)
        (recommend_simple sampleState 1 2)
      ∧ ∀ q : ℚ,
          ((recommend_simple sampleState 1 2).filter
              (fun ds =>
                decide (score_of sampleState (sampleDataSet 1 .FLOWCHART) ds = q)))
            <+: ((sampleState.datasets.filter (fun ds => decide (ds.id ≠ 1))).filter
                (fun ds =>
                  decide (score_of sampleState (sampleDataSet 1 .FLOWCHART) ds = q)))) :=
  ⟨rfl, recommend_sorted_stable sampleState 1 2 (sampleDataSet 1 .FLOWCHART) rfl⟩

end MermaidHub

namespace MermaidHub

/-- **C3**: for every non-empty pool containing the target and `top_n ≥ 1`,
no recommended dataset carries the target's id (the loop skips every pool
entry whose id equals the requested id). -/
theorem recommend_excludes_target (s : DbState) (did top_n : Nat)
    (target : DataSet) (_hne : s.datasets ≠ [])
    (h : s.datasets.find? (fun ds => ds.id == did) = some target)
    (_htop : 1 ≤ top_n) :
    ∀ ds ∈ recommend_simple s did top_n, ds.id ≠ did := by
  rw [recommend_simple_eq s did top_n target h]
  intro ds hds
  have hmem : ds ∈ (s.datasets.filter (fun d => decide (d.id ≠ did))) :=
    List.mem_mergeSort.mp (List.mem_of_mem_take hds)
  simpa using (List.mem_filter.mp hmem).2

/-- Closed instance of `recommend_excludes_target` on `sampleState`. -/
theorem recommend_excludes_target_witness :
    sampleState.datasets ≠ []
    ∧ sampleState.datasets.find? (fun ds => ds.id == 1)
        = some (sampleDataSet 1 .FLOWCHART)
    ∧ 1 ≤ 3
    ∧ ∀ ds ∈ recommend_simple sampleState 1 3, ds.id ≠ 1 :=
  ⟨by decide, rfl, by decide,
    recommend_excludes_target sampleState 1 3 (sampleDataSet 1 .FLOWCHART)
      (by decide) rfl (by decide)⟩

/-- The claim "for every pool, the result length is
`min top_n eligibleCount`" fails when the target id is absent from a
non-empty pool: on `absentTargetState` (one dataset, id 2) with target id 1
and `top_n = 1` the code returns the empty list although
`min 1 eligibleCount = 1`. -/
theorem recommend_length_cex :
    (recommend_simple absentTargetState 1 1).length
      ≠ min 1
          ((absentTargetState.datasets.filter
            (fun ds => decide (ds.id ≠ 1))).length) := by
  decide

/-- **C4 (amended)**: for every pool that does contain the target and every
positive `top_n`, the result length is `min top_n eligibleCount` where
`eligibleCount` counts the pool entries whose id differs from the target's;
in particular all eligible candidates are returned when there are fewer than
`top_n` of them. -/
theorem recommend_length (s : DbState) (did top_n : Nat) (target : DataSet)
    (h : s.datasets.find? (fun ds => ds.id == did) = some target)
    (_htop : 1 ≤ top_n) :
    (recommend_simple s did top_n).length
      = min top_n ((s.datasets.filter (fun ds => decide (ds.id ≠ did))).length) := by
  rw [recommend_simple_eq s did top_n target h]
  rw [List.length_take, List.length_mergeSort]

/-- Closed instance of `recommend_length` on `sampleState`: two eligible
candidates, `top_n = 3`, so both are returned. -/
theorem recommend_length_witness :
    sampleState.datasets.find? (fun ds => ds.id == 1)
        = some (sampleDataSet 1 .FLOWCHART)
    ∧ 1 ≤ 3
    ∧ (recommend_simple sampleState 1 3).length
        = min 3
            ((sampleState.datasets.filter
              (fun ds => decide (ds.id ≠ 1))).length) :=
  ⟨rfl, by decide,
    recommend_length sampleState 1 3 (sampleDataSet 1 .FLOWCHART) rfl
      (by decide)⟩

/-- **C5**: when the requested id matches no pool entry (in particular when
the pool is empty) `recommend_simple` returns `[]`, and a pool whose only
entry is the target also yields `[]`. -/
theorem recommend_absent_or_lone_target (s : DbState) (did top_n : Nat) :
    ((∀ ds ∈ s.datasets, ds.id ≠ did) → recommend_simple s did top_n = [])
    ∧ (∀ t : DataSet, s.datasets = [t] → t.id = did →
        recommend_simple s did top_n = []) := by
  constructor
  · intro habs
    have hnone : s.datasets.find? (fun ds => ds.id == did) = none := by
      rw [List.find?_eq_none]
      intro ds hds
      simpa using habs ds hds
    unfold recommend_simple
    rw [hnone]
  · intro t hpool hid
    have hfind : s.datasets.find? (fun ds => ds.id == did) = some t := by
      rw [hpool]
      simp [List.find?, hid]
    rw [recommend_simple_eq s did top_n t hfind, hpool]
    simp [hid]

/-- Closed instance of `recommend_absent_or_lone_target`: on
`absentTargetState` the lookup for id 1 fails and the result is empty; on
`onlyTargetState` the pool is exactly the target and the result is empty. -/
theorem recommend_absent_or_lone_target_witness :
    (∀ ds ∈ absentTargetState.datasets, ds.id ≠ 1)
    ∧ recommend_simple absentTargetState 1 3 = []
    ∧ onlyTargetState.datasets = [sampleDataSet 1 .FLOWCHART]
    ∧ (sampleDataSet 1 .FLOWCHART).id = 1
    ∧ recommend_simple onlyTargetState 1 3 = [] :=
  ⟨by decide,
    (recommend_absent_or_lone_target absentTargetState 1 3).1 (by decide),
    rfl, rfl,
    (recommend_absent_or_lone_target onlyTargetState 1 3).2
      (sampleDataSet 1 .FLOWCHART) rfl rfl⟩

end MermaidHub

namespace MermaidHub

/-- **C6**: the ranker is total on well-formed inputs: the popularity divisor
is always at least 1 (`max(...) or 1`), a missing (`None`) or empty tag
string parses to the empty token list, and a dataset with an empty parsed tag
set or an empty author list contributes 0 to the corresponding sub-score on
either side, rather than failing. -/
theorem recommend_total_safety (s : DbState) :
    1 ≤ max_popularity_of (s.datasets.map (fun ds => get_popularity s ds.id))
    ∧ parse_tags none = [] ∧ parse_tags (some "") = []
    ∧ (∀ a b : DataSet, parse_tags a.ds_meta_data.tags = [] →
        tag_similarity a b = 0 ∧ tag_similarity b a = 0)
    ∧ (∀ a b : DataSet, a.ds_meta_data.authors = [] →
        author_similarity a b = 0 ∧ author_similarity b a = 0) := by
  refine ⟨?_, rfl, rfl, ?_, ?_⟩
  · by_cases hm : (s.datasets.map (fun ds => get_popularity s ds.id)).foldl max 0 = 0
    · simp [max_popularity_of, hm]
    · simp only [max_popularity_of, if_neg hm]
      exact Nat.one_le_iff_ne_zero.mpr hm
  · intro a b htags
    constructor
    · simp [tag_similarity, htags]
    · simp [tag_similarity, htags]
  · intro a b hauth
    constructor
    · simp [author_similarity, hauth]
    · simp [author_similarity, hauth]

/-- Closed instance of `recommend_total_safety`: the divisor on `sampleState`
is at least 1 and the tagless, authorless `noTagsDataSet` contributes 0 to
both sub-scores. -/
theorem recommend_total_safety_witness :
    1 ≤ max_popularity_of
        (sampleState.datasets.map (fun ds => get_popularity sampleState ds.id))
    ∧ parse_tags noTagsDataSet.ds_meta_data.tags = []
    ∧ tag_similarity noTagsDataSet (sampleDataSet 1 .FLOWCHART) = 0
    ∧ noTagsDataSet.ds_meta_data.authors = []
    ∧ author_similarity (sampleDataSet 1 .FLOWCHART) noTagsDataSet = 0 :=
  ⟨(recommend_total_safety sampleState).1,
    by decide,
    ((recommend_total_safety sampleState).2.2.2.1 noTagsDataSet
      (sampleDataSet 1 .FLOWCHART) (by decide)).1,
    by decide,
    ((recommend_total_safety sampleState).2.2.2.2 noTagsDataSet
      (sampleDataSet 1 .FLOWCHART) (by decide)).2⟩

/-- The scored list reads only the pool and the per-dataset popularity
counts: two states agreeing on those yield identical scored lists. -/
theorem recommend_scored_congr (s1 s2 : DbState) (did : Nat)
    (target : DataSet) (hpool : s1.datasets = s2.datasets)
    (hpop : ∀ i, get_popularity s1 i = get_popularity s2 i) :
    recommend_scored s1 did target = recommend_scored s2 did target := by
  simp only [recommend_scored, hpool, hpop]

/-- **C7**: the ranker is a pure function of the requested id, the pool and
the per-dataset popularity counts (in the code the counts are produced by
separate count queries): two database states that agree on the dataset pool
and on every popularity count produce the same recommendation list for every
target id and `top_n`, and nothing else in the state is read. -/
theorem recommend_deterministic (s1 s2 : DbState) (did top_n : Nat)
    (hpool : s1.datasets = s2.datasets)
    (hpop : ∀ i, get_popularity s1 i = get_popularity s2 i) :
    recommend_simple s1 did top_n = recommend_simple s2 did top_n := by
  unfold recommend_simple
  rw [hpool]
  cases hf : s2.datasets.find? (fun ds => ds.id == did) with
  | none => rfl
  | some t =>
    dsimp only
    rw [recommend_scored_congr s1 s2 did t hpool hpop]

/-- Closed instance of `recommend_deterministic`: `sampleState` and a copy
whose download record carries a different date (a field the ranker never
reads) produce the same recommendations. -/
theorem recommend_deterministic_witness :
    sampleState.datasets
        = (DbState.mk sampleState.datasets [⟨2⟩] [⟨3, 999⟩]).datasets
    ∧ (∀ i, get_popularity sampleState i
        = get_popularity (DbState.mk sampleState.datasets [⟨2⟩] [⟨3, 999⟩]) i)
    ∧ recommend_simple sampleState 1 3
        = recommend_simple (DbState.mk sampleState.datasets [⟨2⟩] [⟨3, 999⟩]) 1 3 :=
  ⟨rfl,
    by intro i; simp [get_popularity, sampleState, List.filter]; cases decide ((3 : Nat) = i) <;> rfl,
    recommend_deterministic sampleState
      (DbState.mk sampleState.datasets [⟨2⟩] [⟨3, 999⟩]) 1 3 rfl
      (by intro i; simp [get_popularity, sampleState, List.filter]; cases decide ((3 : Nat) = i) <;> rfl)⟩

end MermaidHub

namespace MermaidHub

/-- **C8**: for every download log, limit and window (finite or unbounded),
the trending aggregation returns at most `limit` rows; every returned row is
a dataset carrying a non-null `dataset_doi` (completed publication) paired
with exactly its count of download events inside the window; and the rows
are ordered by that count descending. -/
theorem trending_top_spec (s : DbState) (now : Int) (limit : Nat)
    (period_days : Option Int) :
    (get_top_downloaded_datasets s now limit period_days).length ≤ limit
    ∧ (∀ p ∈ get_top_downloaded_datasets s now limit period_days,
        p.1.ds_meta_data.dataset_doi.isSome = true
        ∧ p.2 = window_download_count s now period_days p.1.id)
    ∧ List.Chain' (fun a b : DataSet × Nat => b.2 ≤ a.2)
        (get_top_downloaded_datasets s now limit period_days) := by
  refine ⟨?_, ?_, ?_⟩
  · unfold get_top_downloaded_datasets
    exact List.length_take_le limit _
  · intro p hp
    unfold get_top_downloaded_datasets at hp
    have h1 := List.mem_mergeSort.mp (List.mem_of_mem_take hp)
    have h2 := (List.mem_filter.mp h1).1
    obtain ⟨ds, hds, heq⟩ := List.mem_map.mp h2
    have hdoi := (List.mem_filter.mp hds).2
    subst heq
    exact ⟨hdoi, rfl⟩
  · unfold get_top_downloaded_datasets
    have hp := List.sorted_mergeSort
      (descBy_trans (Prod.snd : DataSet × Nat → Nat))
      (descBy_total (Prod.snd : DataSet × Nat → Nat))
      (((s.datasets.filter
          (fun ds => ds.ds_meta_data.dataset_doi.isSome)).map
        (fun ds => (ds, window_download_count s now period_days ds.id))).filter
          (fun p => 0 < p.2))
    have hp2 := List.Pairwise.sublist (List.take_sublist limit _) hp
    exact (hp2.imp (fun hab => of_decide_eq_true hab)).chain'

/-- Closed instance of `trending_top_spec` on `sampleState` with `now = 5`,
`limit = 10` and a 7-day window. -/
theorem trending_top_spec_witness :
    (get_top_downloaded_datasets sampleState 5 10 (some 7)).length ≤ 10
    ∧ (∀ p ∈ get_top_downloaded_datasets sampleState 5 10 (some 7),
        p.1.ds_meta_data.dataset_doi.isSome = true
        ∧ p.2 = window_download_count sampleState 5 (some 7) p.1.id)
    ∧ List.Chain' (fun a b : DataSet × Nat => b.2 ≤ a.2)
        (get_top_downloaded_datasets sampleState 5 10 (some 7)) :=
  trending_top_spec sampleState 5 10 (some 7)

/-- **C9**: for every period string other than `"week"` and `"month"` both
trending service entry points fail with the `ValueError` message before any
repository query (the error is independent of the database state), and a
successful call always uses a bounded window of exactly 7 or 30 days — the
unbounded (`period_days = None`) window is not reachable through the
period-string interface. -/
theorem trending_period_validation (s : DbState) (now : Int) (limit : Nat)
    (period : String) :
    (period ≠ "week" → period ≠ "month" →
      get_trending_datasets s now limit period
          = Except.error
              ("Invalid period '" ++ period ++ "'. Must be 'week' or 'month'.")
        ∧ get_trending_datasets_metadata s now limit period
          = Except.error
              ("Invalid period '" ++ period ++ "'. Must be 'week' or 'month'."))
    ∧ (∀ l, get_trending_datasets s now limit period = Except.ok l →
        (period = "week"
          ∧ l = get_top_downloaded_datasets s now limit (some 7))
        ∨ (period = "month"
          ∧ l = get_top_downloaded_datasets s now limit (some 30))) := by
  constructor
  · intro hw hm
    constructor
    · simp [get_trending_datasets, get_period_days, hw, hm, Except.bind]
    · simp [get_trending_datasets_metadata, get_period_days, hw, hm,
        Except.bind]
  · intro l hl
    by_cases hw : period = "week"
    · left
      refine ⟨hw, ?_⟩
      simp [get_trending_datasets, get_period_days, hw, Except.bind] at hl
      exact hl.symm
    · by_cases hm : period = "month"
      · right
        refine ⟨hm, ?_⟩
        simp [get_trending_datasets, get_period_days, hw, hm, Except.bind] at hl
        exact hl.symm
      · exfalso
        simp [get_trending_datasets, get_period_days, hw, hm, Except.bind] at hl

/-- Closed instance of `trending_period_validation`: the period string
`"year"` is rejected by both entry points on `sampleState`. -/
theorem trending_period_validation_witness :
    ("year" : String) ≠ "week"
    ∧ ("year" : String) ≠ "month"
    ∧ get_trending_datasets sampleState 5 10 "year"
        = Except.error "Invalid period 'year'. Must be 'week' or 'month'."
    ∧ get_trending_datasets_metadata sampleState 5 10 "year"
        = Except.error "Invalid period 'year'. Must be 'week' or 'month'." :=
  ⟨by decide, by decide,
    ((trending_period_validation sampleState 5 10 "year").1 (by decide)
      (by decide)).1,
    ((trending_period_validation sampleState 5 10 "year").1 (by decide)
      (by decide)).2⟩

end MermaidHub

namespace MermaidHub

/-- Replacing commas by spaces and splitting on whitespace is the same as
splitting on "comma or whitespace" directly: non-separator characters are
untouched by the replacement and every replaced comma becomes whitespace. -/
theorem splitSepAux_comma_free (l : List Char) (acc : List Char) :
    splitSepAux (fun c => c.isWhitespace)
        (l.map (fun c => if c = ',' then ' ' else c)) acc
      = splitSepAux (fun c => c == ',' || c.isWhitespace) l acc := by
  induction l generalizing acc with
  | nil => rfl
  | cons c cs ih =>
    by_cases hc : c = ','
    · subst hc
      simp [splitSepAux, ih]
    · have hbeq : (c == ',') = false := by
        simp [hc]
      by_cases hw : c.isWhitespace
      · simp [splitSepAux, hc, hbeq, hw, ih]
      · simp [splitSepAux, hc, hbeq, hw, ih]

/-- **C10**: the three similarity helpers are symmetric in their two dataset
arguments, and the tag parser treats commas and whitespace interchangeably as
separators: parsing a tag string is splitting it on "comma or whitespace". -/
theorem similarity_symmetric_and_tag_separators :
    (∀ a b : DataSet,
      diagram_similarity a b = diagram_similarity b a
      ∧ tag_similarity a b = tag_similarity b a
      ∧ author_similarity a b = author_similarity b a)
    ∧ ∀ tg : String,
        parse_tags (some tg)
          = splitSep (fun c => c == ',' || c.isWhitespace) tg.toList := by
  constructor
  · intro a b
    exact ⟨diagram_similarity_comm a b, tag_similarity_comm a b,
      author_similarity_comm a b⟩
  · intro tg
    unfold parse_tags splitSep
    simp only [Option.getD_some]
    exact splitSepAux_comma_free tg.toList []

end MermaidHub
